import Mathlib

/-!
Shallow embedding of the blueprint_metrics_cdk repository: the entry point
(bin script) that reads four environment variables into a props record, and
the stack constructor `BlueprintMetricsCdkStack` that declares a secret, an
IAM role, a Lambda function (with its bundling command), a function URL, a
weekly schedule rule and four CloudFormation outputs.

Provider-assigned attributes (the secret's ARN and the function URL's
address) are not computed by the repository's code; they enter the model as
universally quantified string parameters of `buildStack`.
-/

namespace BlueprintMetricsCdk

/-- JavaScript logical-or against a default on an optional string:
`x || d` yields `d` when `x` is `undefined` (`none`) or the empty string
(the only falsy string), and `x`'s value otherwise. -/
def jsOrDefault (x : Option String) (d : String) : String :=
  match x with
  | none => d
  | some s => if s = "" then d else s

/-- The process environment: a partial map from variable names to values. -/
abbrev ProcessEnv := String → Option String

/-- The props interface of `BlueprintMetricsCdkStack`
(src/lib/blueprint_metrics_cdk-stack.ts, lines 10-15). -/
structure BlueprintMetricsCdkStackProps where
  githubToken : String
  discordWebhookUrl : String
  googleWorkloadIdentityAudience : String
  googleWorkloadIdentityServiceAccount : String
deriving Repr, DecidableEq

/-- The entry point (src/unnamed/part_000): each props field is the
corresponding environment variable `|| ""`. -/
def entryProps (env : ProcessEnv) : BlueprintMetricsCdkStackProps :=
  { discordWebhookUrl := jsOrDefault (env "DISCORD_WEBHOOK_URL") ""
    githubToken := jsOrDefault (env "GITHUB_TOKEN") ""
    googleWorkloadIdentityAudience :=
      jsOrDefault (env "GOOGLE_WORKLOADIDENTITY_AUDIENCE") ""
    googleWorkloadIdentityServiceAccount :=
      jsOrDefault (env "GOOGLE_WORKLOADIDENTITY_SERVICEACCOUNT") "" }

/-- A Secrets Manager secret declaration; `secretArn` is the
provider-assigned address. -/
structure Secret where
  secretName : String
  description : String
  secretArn : String
deriving Repr, DecidableEq

/-- An IAM policy statement (actions and resources). -/
structure PolicyStatement where
  actions : List String
  resources : List String
deriving Repr, DecidableEq

/-- An IAM role declaration: trust principal, physical name, attached AWS
managed policies, and the inline statements added with `addToPolicy`. -/
structure Role where
  assumedBy : String
  roleName : String
  managedPolicies : List String
  policyStatements : List PolicyStatement
deriving Repr, DecidableEq

def setOptsCmd : String := "set -euo pipefail"

def pipInstallCmd : String :=
  "pip install -r requirements.txt --no-cache-dir --platform manylinux2014_x86_64 --only-binary=:all: -t /asset-output"

def cpSourcesCmd : String := "cp -au *.py requirements.txt /asset-output"

def rmPycacheCmd : String :=
  "find /asset-output -name '__pycache__' -prune -exec rm -rf \x7b\x7d +"

def rmPycCmd : String := "find /asset-output -name '*.pyc' -delete"

def rmTestsCmd : String :=
  "find /asset-output -type d \\( -name 'tests' -o -name 'test' \\) -prune -exec rm -rf \x7b\x7d +"

/-- The six strings of the bundling script array
(src/lib/blueprint_metrics_cdk-stack.ts, lines 61-68), in source order; the
sixth carries the source's trailing `|| true`. They are joined with
`.join(" && ")` into the one command that `bash -c` runs. -/
def bundlingScriptParts : List String :=
  [ setOptsCmd,
    pipInstallCmd,
    cpSourcesCmd,
    rmPycacheCmd,
    rmPycCmd,
    rmTestsCmd ++ " || true" ]

/-- The joined bundling command, exactly as the source builds it. -/
def bundlingScript : String :=
  String.intercalate " && " bundlingScriptParts

/-- A connector of a bash AND-OR list: `&&` and `||` have equal precedence
and associate to the left. -/
inductive Connector where
  | andThen
  | orElse
deriving Repr, DecidableEq

/-- A simple command of the bundling script: an external command, whose
success an execution oracle decides, or the shell builtin `true`, which
always succeeds. -/
inductive SimpleCmd where
  | sh (cmd : String)
  | builtinTrue
deriving Repr, DecidableEq

/-- A bash AND-OR list: a first command followed by connector-command
pairs, read left to right. -/
structure AndOrList where
  first : SimpleCmd
  rest : List (Connector × SimpleCmd)
deriving Repr, DecidableEq

def Connector.render : Connector → String
  | .andThen => " && "
  | .orElse => " || "

def SimpleCmd.render : SimpleCmd → String
  | .sh c => c
  | .builtinTrue => "true"

/-- The shell text an AND-OR list denotes. -/
def AndOrList.render (l : AndOrList) : String :=
  l.first.render ++ String.join (l.rest.map fun p => p.1.render ++ p.2.render)

/-- The bash parse of `bundlingScript`: because `&&` and `||` have equal
precedence and associate to the left, the one `|| true` is the final
element of a single seven-command AND-OR list, not a suffix scoped to the
sixth command. The theorem `bundlingAndOr_render` checks this parse renders
back to the exact source text. -/
def bundlingAndOr : AndOrList :=
  { first := .sh setOptsCmd
    rest := [ (.andThen, .sh pipInstallCmd),
              (.andThen, .sh cpSourcesCmd),
              (.andThen, .sh rmPycacheCmd),
              (.andThen, .sh rmPycCmd),
              (.andThen, .sh rmTestsCmd),
              (.orElse, .builtinTrue) ] }

/-- Success of one simple command under an oracle assigning each external
command a success bit. -/
def runCmd (oracle : String → Bool) : SimpleCmd → Bool
  | .sh c => oracle c
  | .builtinTrue => true

/-- Left-to-right execution of the tail of an AND-OR list from a current
exit status: an `&&` operand runs only while the status is success, an
`||` operand only after a failure. Returns the final status and the
commands that actually ran, in order. -/
def runAndOr (oracle : String → Bool) :
    Bool → List (Connector × SimpleCmd) → Bool × List SimpleCmd
  | status, [] => (status, [])
  | status, (conn, c) :: rest =>
    match conn with
    | .andThen =>
      if status then
        let s := runCmd oracle c
        let r := runAndOr oracle s rest
        (r.1, c :: r.2)
      else
        runAndOr oracle status rest
    | .orElse =>
      if status then
        runAndOr oracle status rest
      else
        let s := runCmd oracle c
        let r := runAndOr oracle s rest
        (r.1, c :: r.2)

/-- Execution of a whole AND-OR list: run the first command, then its tail. -/
def AndOrList.run (oracle : String → Bool) (l : AndOrList) : Bool × List SimpleCmd :=
  let r := runAndOr oracle (runCmd oracle l.first) l.rest
  (r.1, l.first :: r.2)

/-- HTTP methods of a function URL's CORS configuration. -/
inductive HttpMethod where
  | GET
  | PUT
  | HEAD
  | POST
  | PATCH
  | DELETE
  | ALL
deriving Repr, DecidableEq

/-- Authentication types of a Lambda function URL. -/
inductive FunctionUrlAuthType where
  | AWS_IAM
  | NONE
deriving Repr, DecidableEq

/-- CORS options of a function URL. -/
structure FunctionUrlCors where
  allowedOrigins : List String
  allowedMethods : List HttpMethod
deriving Repr, DecidableEq

/-- A Lambda function URL; `url` is the provider-assigned address. -/
structure FunctionUrl where
  authType : FunctionUrlAuthType
  cors : FunctionUrlCors
  url : String
deriving Repr, DecidableEq

/-- `cdk.Duration`, in seconds. -/
structure Duration where
  seconds : Nat
deriving Repr, DecidableEq

/-- `cdk.Duration.minutes`. -/
def Duration.minutes (m : Nat) : Duration :=
  { seconds := m * 60 }

/-- A `lambda.Code.fromAsset` declaration: the asset directory and the
bundling command array. -/
structure CodeAsset where
  assetDir : String
  bundlingCommand : List String
deriving Repr, DecidableEq

/-- A Lambda function declaration. -/
structure LambdaFunction where
  runtime : String
  handler : String
  role : Option Role
  functionName : String
  code : CodeAsset
  timeout : Duration
  memorySize : Nat
  description : String
  environment : List (String × String)
deriving Repr, DecidableEq

/-- `events.Schedule.cron` options; a field left out of the source's options
object is `none`. -/
structure CronOptions where
  minute : Option String
  hour : Option String
  day : Option String
  month : Option String
  year : Option String
  weekDay : Option String
deriving Repr, DecidableEq

/-- An EventBridge rule: its schedule and its target function names. -/
structure Rule where
  schedule : CronOptions
  targets : List String
deriving Repr, DecidableEq

/-- A CloudFormation output binding. -/
structure CfnOutput where
  logicalId : String
  value : String
deriving Repr, DecidableEq

/-- The in-memory result of running the `BlueprintMetricsCdkStack`
constructor: every construct it declares, plus the grantees of the secret's
`grantRead` call. -/
structure Stack where
  metricsConfigSecret : Secret
  executionRole : Role
  fn : LambdaFunction
  secretReadGrantees : List String
  fnUrl : FunctionUrl
  scheduleRule : CronOptions
  weeklyRule : Rule
  outputs : List CfnOutput
deriving Repr, DecidableEq

/-- The `BlueprintMetricsCdkStack` constructor
(src/lib/blueprint_metrics_cdk-stack.ts, lines 18-122), with the
provider-assigned secret ARN and function URL passed in as parameters. -/
def buildStack (props : BlueprintMetricsCdkStackProps)
    (secretArnV : String) (fnUrlV : String) : Stack :=
  let metricsConfigSecret : Secret :=
    { secretName := "blueprint-metrics-config"
      description := "Configuration for Blueprint Metrics Lambda"
      secretArn := secretArnV }
  let executionRole0 : Role :=
    { assumedBy := "lambda.amazonaws.com"
      roleName := "bp-metrics-role"
      managedPolicies := ["service-role/AWSLambdaBasicExecutionRole"]
      policyStatements := [] }
  let executionRole : Role :=
    { executionRole0 with
      policyStatements := executionRole0.policyStatements ++
        [{ actions := ["sts:GetCallerIdentity"], resources := ["*"] }] }
  let fn : LambdaFunction :=
    { runtime := "python3.14"
      handler := "main.handler"
      role := some executionRole
      functionName := "bp-metrics-fn"
      code := { assetDir := "../lambda"
                bundlingCommand := ["bash", "-c", bundlingScript] }
      timeout := Duration.minutes 5
      memorySize := 1024
      description := "Lambda function for Blueprint Metrics"
      environment :=
        [ ("PROD", "true"),
          ("METRICS_CONFIG_SECRET_ARN", metricsConfigSecret.secretArn),
          ("DISCORD_WEBHOOK_URL", props.discordWebhookUrl),
          ("GITHUB_TOKEN", props.githubToken),
          ("GOOGLE_WORKLOADIDENTITY_AUDIENCE", props.googleWorkloadIdentityAudience),
          ("GOOGLE_WORKLOADIDENTITY_SERVICEACCOUNT",
            props.googleWorkloadIdentityServiceAccount) ] }
  let fnUrl : FunctionUrl :=
    { authType := .NONE
      cors := { allowedOrigins := ["*"], allowedMethods := [.POST] }
      url := fnUrlV }
  let scheduleRule : CronOptions :=
    { minute := some "0"
      hour := some "19"
      day := none
      month := none
      year := none
      weekDay := some "MON" }
  let weeklyRule : Rule :=
    { schedule := scheduleRule
      targets := [fn.functionName] }
  let outputs : List CfnOutput :=
    [ { logicalId := "LambdaFunctionName", value := fn.functionName },
      { logicalId := "LambdaExecutionRoleName",
        value := jsOrDefault (fn.role.map Role.roleName) "" },
      { logicalId := "MetricsConfigSecretArn",
        value := metricsConfigSecret.secretArn },
      { logicalId := "LambdaFunctionUrl", value := fnUrl.url } ]
  { metricsConfigSecret := metricsConfigSecret
    executionRole := executionRole
    fn := fn
    secretReadGrantees := [fn.functionName]
    fnUrl := fnUrl
    scheduleRule := scheduleRule
    weeklyRule := weeklyRule
    outputs := outputs }

/-- A declared resource, for counting the resource graph's members. -/
inductive Resource where
  | secretDecl (s : Secret)
  | roleDecl (r : Role)
  | functionDecl (f : LambdaFunction)
  | functionUrlDecl (u : FunctionUrl)
  | ruleDecl (r : Rule)
  | outputDecl (o : CfnOutput)
deriving Repr, DecidableEq

def Resource.isSecret : Resource → Bool
  | .secretDecl _ => true
  | _ => false

def Resource.isRole : Resource → Bool
  | .roleDecl _ => true
  | _ => false

def Resource.isFunction : Resource → Bool
  | .functionDecl _ => true
  | _ => false

def Resource.isFunctionUrl : Resource → Bool
  | .functionUrlDecl _ => true
  | _ => false

def Resource.isRule : Resource → Bool
  | .ruleDecl _ => true
  | _ => false

def Resource.isOutput : Resource → Bool
  | .outputDecl _ => true
  | _ => false

/-- The resource declarations a stack holds, in declaration order. -/
def Stack.resources (s : Stack) : List Resource :=
  [ .secretDecl s.metricsConfigSecret,
    .roleDecl s.executionRole,
    .functionDecl s.fn,
    .functionUrlDecl s.fnUrl,
    .ruleDecl s.weeklyRule ]
  ++ s.outputs.map Resource.outputDecl

/-- With an empty-string default, JavaScript `||` returns the value of a set
variable even when that value is itself empty. -/
theorem jsOrDefault_some_empty (v : String) : jsOrDefault (some v) "" = v := by
  by_cases h : v = "" <;> simp [jsOrDefault, h]

/-- Claim C1: for every assignment of the process environment, each of the
four configuration-record fields built by the entry point equals the
corresponding environment variable's value when it is set, and equals the
empty string when it is unset. -/
theorem entryProps_fields_from_env (env : ProcessEnv) :
    (∀ v, env "DISCORD_WEBHOOK_URL" = some v →
      (entryProps env).discordWebhookUrl = v) ∧
    (env "DISCORD_WEBHOOK_URL" = none → (entryProps env).discordWebhookUrl = "") ∧
    (∀ v, env "GITHUB_TOKEN" = some v → (entryProps env).githubToken = v) ∧
    (env "GITHUB_TOKEN" = none → (entryProps env).githubToken = "") ∧
    (∀ v, env "GOOGLE_WORKLOADIDENTITY_AUDIENCE" = some v →
      (entryProps env).googleWorkloadIdentityAudience = v) ∧
    (env "GOOGLE_WORKLOADIDENTITY_AUDIENCE" = none →
      (entryProps env).googleWorkloadIdentityAudience = "") ∧
    (∀ v, env "GOOGLE_WORKLOADIDENTITY_SERVICEACCOUNT" = some v →
      (entryProps env).googleWorkloadIdentityServiceAccount = v) ∧
    (env "GOOGLE_WORKLOADIDENTITY_SERVICEACCOUNT" = none →
      (entryProps env).googleWorkloadIdentityServiceAccount = "") := by
  refine ⟨?_, ?_, ?_, ?_, ?_, ?_, ?_, ?_⟩ <;>
    first
    | (intro v h
       simp only [entryProps, h]
       exact jsOrDefault_some_empty v)
    | (intro h
       simp only [entryProps, h]
       rfl)

/-- A sample environment with only the webhook variable set. -/
def envSample : ProcessEnv := fun k =>
  if k = "DISCORD_WEBHOOK_URL" then some "https://example.test/hook" else none

/-- Claim C1 witness: on a concrete environment with only the webhook
variable set, the set variable is copied and an unset one defaults to the
empty string. -/
theorem entryProps_fields_from_env_witness :
    (entryProps envSample).discordWebhookUrl = "https://example.test/hook" ∧
    (entryProps envSample).githubToken = "" :=
  ⟨(entryProps_fields_from_env envSample).1 "https://example.test/hook" rfl,
    (entryProps_fields_from_env envSample).2.2.2.1 rfl⟩

/-- Claim C2: for every configuration record and every provider-assigned
secret ARN and function URL, the declared resource graph has exactly one
secret, one role, one function, one function URL, one schedule rule, and
four output bindings. -/
theorem stack_resource_counts (props : BlueprintMetricsCdkStackProps)
    (secretArnV fnUrlV : String) :
    (buildStack props secretArnV fnUrlV).resources.countP Resource.isSecret = 1 ∧
    (buildStack props secretArnV fnUrlV).resources.countP Resource.isRole = 1 ∧
    (buildStack props secretArnV fnUrlV).resources.countP Resource.isFunction = 1 ∧
    (buildStack props secretArnV fnUrlV).resources.countP Resource.isFunctionUrl = 1 ∧
    (buildStack props secretArnV fnUrlV).resources.countP Resource.isRule = 1 ∧
    (buildStack props secretArnV fnUrlV).resources.countP Resource.isOutput = 4 :=
  ⟨rfl, rfl, rfl, rfl, rfl, rfl⟩

/-- Claim C3: the schedule rule is always the cron schedule with minute "0",
hour "19", week day "MON" (no day, month or year constraint), and it does
not depend on the configuration or on provider-assigned values. -/
theorem schedule_rule_constant (props props2 : BlueprintMetricsCdkStackProps)
    (secretArnV fnUrlV arn2 url2 : String) :
    (buildStack props secretArnV fnUrlV).scheduleRule =
      { minute := some "0", hour := some "19", day := none, month := none,
        year := none, weekDay := some "MON" } ∧
    (buildStack props secretArnV fnUrlV).weeklyRule.schedule =
      (buildStack props secretArnV fnUrlV).scheduleRule ∧
    (buildStack props secretArnV fnUrlV).scheduleRule =
      (buildStack props2 arn2 url2).scheduleRule :=
  ⟨rfl, rfl, rfl⟩

/-- Claim C4: the function URL always has authentication type NONE, CORS
allowed methods exactly [POST], and CORS allowed origins exactly ["*"]. -/
theorem fn_url_auth_and_cors (props : BlueprintMetricsCdkStackProps)
    (secretArnV fnUrlV : String) :
    (buildStack props secretArnV fnUrlV).fnUrl.authType = FunctionUrlAuthType.NONE ∧
    (buildStack props secretArnV fnUrlV).fnUrl.cors.allowedMethods = [HttpMethod.POST] ∧
    (buildStack props secretArnV fnUrlV).fnUrl.cors.allowedOrigins = ["*"] :=
  ⟨rfl, rfl, rfl⟩

/-- Claim C5: for all configuration values A, B, C, D and secret ARN, the
function's declared environment is exactly the six-entry map binding the
four configuration names to A, B, C, D, the secret-ARN name to the secret's
address, and PROD to "true". -/
theorem fn_environment_exact (A B C D secretArnV fnUrlV : String) :
    (buildStack
      { githubToken := B, discordWebhookUrl := A,
        googleWorkloadIdentityAudience := C,
        googleWorkloadIdentityServiceAccount := D }
      secretArnV fnUrlV).fn.environment =
      [ ("PROD", "true"),
        ("METRICS_CONFIG_SECRET_ARN", secretArnV),
        ("DISCORD_WEBHOOK_URL", A),
        ("GITHUB_TOKEN", B),
        ("GOOGLE_WORKLOADIDENTITY_AUDIENCE", C),
        ("GOOGLE_WORKLOADIDENTITY_SERVICEACCOUNT", D) ] :=
  rfl

set_option maxRecDepth 16384 in
/-- The parsed AND-OR list renders back to exactly the joined command
string the source builds, checking the parse against the source text. -/
theorem bundlingAndOr_render :
    AndOrList.render bundlingAndOr = bundlingScript := by
  decide

/-- An AND-OR tail that ends in `|| true` finishes with success status,
whatever the starting status and the outcomes of the other commands. -/
theorem runAndOr_trailing_rescue (oracle : String → Bool)
    (l : List (Connector × SimpleCmd)) :
    ∀ status : Bool,
      (runAndOr oracle status
        (l ++ [(Connector.orElse, SimpleCmd.builtinTrue)])).1 = true := by
  induction l with
  | nil =>
    intro status
    cases status <;> simp [runAndOr, runCmd]
  | cons p rest ih =>
    intro status
    obtain ⟨conn, c⟩ := p
    cases conn <;> cases status <;> simp [runAndOr, runCmd, ih]

/-- An oracle under which every bundling command succeeds except the
dependency-installation step. -/
def pipFailOracle : String → Bool := fun c => ! (c == pipInstallCmd)

/-- Claim C6: the bundling command as written never fails. The six script
strings are joined by " && " into one bash AND-OR list whose trailing
`|| true` — at equal precedence with the `&&` connectors, associating left —
rescues the whole chain, so the joined command exits successfully under
every assignment of command outcomes. In particular, when the
dependency-installation step fails, the remaining build steps are skipped
yet the overall command still succeeds with the asset partially built,
against the claim's fail-fast, no-partial-success statement. -/
theorem bundling_command_never_fails :
    (∀ oracle : String → Bool, (AndOrList.run oracle bundlingAndOr).1 = true) ∧
    AndOrList.run pipFailOracle bundlingAndOr =
      (true,
        [SimpleCmd.sh setOptsCmd, SimpleCmd.sh pipInstallCmd,
          SimpleCmd.builtinTrue]) := by
  constructor
  · intro oracle
    have h := runAndOr_trailing_rescue oracle
      [ (Connector.andThen, SimpleCmd.sh pipInstallCmd),
        (Connector.andThen, SimpleCmd.sh cpSourcesCmd),
        (Connector.andThen, SimpleCmd.sh rmPycacheCmd),
        (Connector.andThen, SimpleCmd.sh rmPycCmd),
        (Connector.andThen, SimpleCmd.sh rmTestsCmd) ]
      (runCmd oracle (SimpleCmd.sh setOptsCmd))
    exact h
  · decide

/-- Claim C7: the execution role always carries exactly the one AWS managed
policy service-role/AWSLambdaBasicExecutionRole and exactly one added
statement, with actions ["sts:GetCallerIdentity"] and resources ["*"]. -/
theorem execution_role_policies (props : BlueprintMetricsCdkStackProps)
    (secretArnV fnUrlV : String) :
    (buildStack props secretArnV fnUrlV).executionRole.managedPolicies =
      ["service-role/AWSLambdaBasicExecutionRole"] ∧
    (buildStack props secretArnV fnUrlV).executionRole.policyStatements =
      [{ actions := ["sts:GetCallerIdentity"], resources := ["*"] }] :=
  ⟨rfl, rfl⟩

/-- Claim C8: the function is always declared with memory size 1024 and
timeout 5 minutes. -/
theorem fn_memory_and_timeout (props : BlueprintMetricsCdkStackProps)
    (secretArnV fnUrlV : String) :
    (buildStack props secretArnV fnUrlV).fn.memorySize = 1024 ∧
    (buildStack props secretArnV fnUrlV).fn.timeout = Duration.minutes 5 :=
  ⟨rfl, rfl⟩

/-- Claim C9: the stack always declares exactly four outputs whose values
are, in order, the function's name, its execution role's name, the secret's
ARN, and the function URL's address. -/
theorem stack_outputs_surface (props : BlueprintMetricsCdkStackProps)
    (secretArnV fnUrlV : String) :
    (buildStack props secretArnV fnUrlV).outputs.length = 4 ∧
    (buildStack props secretArnV fnUrlV).outputs.map CfnOutput.logicalId =
      ["LambdaFunctionName", "LambdaExecutionRoleName",
        "MetricsConfigSecretArn", "LambdaFunctionUrl"] ∧
    (buildStack props secretArnV fnUrlV).outputs.map CfnOutput.value =
      [ (buildStack props secretArnV fnUrlV).fn.functionName,
        (buildStack props secretArnV fnUrlV).executionRole.roleName,
        (buildStack props secretArnV fnUrlV).metricsConfigSecret.secretArn,
        (buildStack props secretArnV fnUrlV).fnUrl.url ] := by
  refine ⟨rfl, rfl, ?_⟩
  simp [buildStack, jsOrDefault]

/-- Claim C10: the role-name output is computed with an empty-string
fallback that fires only when the function has no role; the function's role
is always the explicitly created execution role, so the fallback is
unreachable and the output value is always the fixed role name
"bp-metrics-role". -/
theorem role_name_output_fallback_unreachable
    (props : BlueprintMetricsCdkStackProps) (secretArnV fnUrlV : String) :
    (buildStack props secretArnV fnUrlV).fn.role =
      some (buildStack props secretArnV fnUrlV).executionRole ∧
    jsOrDefault (Option.map Role.roleName (none : Option Role)) "" = "" ∧
    jsOrDefault ((buildStack props secretArnV fnUrlV).fn.role.map Role.roleName) "" =
      (buildStack props secretArnV fnUrlV).executionRole.roleName ∧
    ((buildStack props secretArnV fnUrlV).outputs.filter
        (fun o => o.logicalId == "LambdaExecutionRoleName")).map CfnOutput.value =
      ["bp-metrics-role"] := by
  refine ⟨rfl, rfl, ?_, ?_⟩ <;> simp [buildStack, jsOrDefault]

end BlueprintMetricsCdk
